import Mathlib

/-!
Shallow embedding of the stirling-pdf-client repository
(files src/stirling_pdf_client/utils.py, client.py, info.py, security.py,
convert.py) together with proofs about the claims of its specification.

Modelling conventions:
* Python byte strings and HTTP header values are modelled as `List Nat`
  (their UTF-8 bytes); Python `str` values that only flow through
  concatenation are modelled as Lean `String`.
* Python regular expressions over the concrete patterns used by the code
  are translated into explicit scanning functions; `\d` is modelled as the
  ASCII digits (the claims only exercise ASCII inputs).
* Fallible Python code is modelled with `Except PyError`.
-/

/-- Errors raised by the client, tagged with the Python exception class. -/
inductive PyError where
  | exception (msg : String)
  | valueError (msg : String)
deriving DecidableEq

/-! ## Version comparator: utils.compare_versions -/

/-- Helper for `findDigitRuns`: scans the characters, accumulating the
current maximal digit run (in reverse) in `run`.  Models
`re.findall(r"\d+", s)` restricted to ASCII digits. -/
def findDigitRunsAux : List Char → List Char → List (List Char)
  | [], run => if run.isEmpty then [] else [run.reverse]
  | c :: cs, run =>
    if c.isDigit then findDigitRunsAux cs (c :: run)
    else if run.isEmpty then findDigitRunsAux cs []
    else run.reverse :: findDigitRunsAux cs []

/-- All maximal digit runs of a character list, in order
(`re.findall(r"\d+", s)`). -/
def findDigitRuns (s : List Char) : List (List Char) :=
  findDigitRunsAux s []

/-- Parse a digit run as a non-negative integer (`int(part)`). -/
def parseDigits (run : List Char) : Nat :=
  run.foldl (fun acc c => acc * 10 + (c.toNat - 48)) 0

/-- `[int(part) for part in re.findall(r"\d+", version)]`. -/
def versionParts (version : String) : List Nat :=
  (findDigitRuns version.data).map parseDigits

/-- The loop `for i in range(max(len(v1_parts), len(v2_parts)))` of
`compare_versions`: the second `Nat` argument is the current index `i`,
the last argument the number of remaining iterations.  At each step
`v1 = v1_parts[i] if i < len(v1_parts) else 0` (that is `getD i 0`),
and the loop early-returns `-1` or `1` on the first unequal pair. -/
def comparePartsLoop (v1Parts v2Parts : List Nat) : Nat → Nat → Int
  | _, 0 => 0
  | i, remaining + 1 =>
    let v1 := v1Parts.getD i 0
    let v2 := v2Parts.getD i 0
    if v1 < v2 then -1
    else if v2 < v1 then 1
    else comparePartsLoop v1Parts v2Parts (i + 1) remaining

/-- utils.compare_versions: extract the digit runs of both version strings,
parse them, and compare them component-wise with missing components read
as 0.  The Python `try`/`except` body cannot raise on `str` inputs, so the
fallback `return 0` branch of the source is unreachable and the function
is total as modelled. -/
def compare_versions (version1 version2 : String) : Int :=
  let v1Parts := versionParts version1
  let v2Parts := versionParts version2
  comparePartsLoop v1Parts v2Parts 0 (max v1Parts.length v2Parts.length)

/-! ### Specification-side comparator (for the refinement claim C2) -/

/-- Modelled from the spec: zero-pad a sequence on the right to length `n`. -/
def padTo (n : Nat) (l : List Nat) : List Nat :=
  l ++ List.replicate (n - l.length) 0

/-- Modelled from the spec: the sign of the first unequal component pair of
two (equal-length) sequences, or 0 if all components are equal. -/
def firstUnequalSign : List Nat → List Nat → Int
  | x :: xs, y :: ys =>
    if x < y then -1 else if y < x then 1 else firstUnequalSign xs ys
  | _, _ => 0

/-- Modelled from the spec: extract the digit runs, zero-pad the shorter
sequence to the longer's length, and return the sign of the first unequal
component pair. -/
def compareVersionsSpec (a b : String) : Int :=
  let p := versionParts a
  let q := versionParts b
  let n := max p.length q.length
  firstUnequalSign (padTo n p) (padTo n q)

/-! ## Byte strings

Python `str` values that the filename extractor manipulates are modelled
as lists of their UTF-8 bytes (`List Nat`).  All the operations the code
performs on them (the regex scan, strip, the prefix tests, percent
decoding and character substitution) act byte-transparently on valid
UTF-8 text, so results can be stated against the UTF-8 bytes of the
expected strings. -/

/-- UTF-8 encoding of a single code point. -/
def utf8Char (c : Nat) : List Nat :=
  if c < 128 then [c]
  else if c < 2048 then [192 + c / 64, 128 + c % 64]
  else if c < 65536 then [224 + c / 4096, 128 + c / 64 % 64, 128 + c % 64]
  else [240 + c / 262144, 128 + c / 4096 % 64, 128 + c / 64 % 64, 128 + c % 64]

/-- The UTF-8 bytes of a Lean string literal (used to write concrete
inputs and outputs). -/
def utf8Bytes (s : String) : List Nat :=
  (s.data.map fun c => utf8Char c.toNat).flatten

/-! ## Filename extractor: utils.get_filename -/

/-- ASCII lower-casing of one byte, as Python regex IGNORECASE applies to
the ASCII letters of the pattern. -/
def lowerByte (b : Nat) : Nat :=
  if 65 ≤ b ∧ b ≤ 90 then b + 32 else b

/-- Case-insensitive prefix test on byte lists. -/
def startsWithCI : List Nat → List Nat → Bool
  | [], _ => true
  | _ :: _, [] => false
  | p :: ps, b :: bs => lowerByte p == lowerByte b && startsWithCI ps bs

/-- Case-sensitive prefix test on byte lists (Python str.startswith). -/
def startsWithBytes : List Nat → List Nat → Bool
  | [], _ => true
  | _ :: _, [] => false
  | p :: ps, b :: bs => p == b && startsWithBytes ps bs

/-- After the literal `filename` of the pattern `filename\*?=([^;]+)`:
an optional `*` (byte 42), the `=` (byte 61), then the group captures the
maximal nonempty run of bytes other than `;` (byte 59). -/
def matchAfterFilename (l : List Nat) : Option (List Nat) :=
  match l with
  | 42 :: 61 :: rest =>
    let cap := rest.takeWhile fun x => x != 59
    if cap.isEmpty then none else some cap
  | 61 :: rest =>
    let cap := rest.takeWhile fun x => x != 59
    if cap.isEmpty then none else some cap
  | _ => none

/-- `re.search(r"filename\*?=([^;]+)", s, re.IGNORECASE)`: scan left to
right for the first position where the case-insensitive literal
`filename` is followed by `\*?=` and a nonempty `[^;]+` capture; return
the captured group. -/
def reSearchFilename : List Nat → Option (List Nat)
  | [] => none
  | b :: bs =>
    if startsWithCI (utf8Bytes "filename") (b :: bs) then
      match matchAfterFilename (List.drop 8 (b :: bs)) with
      | some cap => some cap
      | none => reSearchFilename bs
    else reSearchFilename bs

/-- Member of the strip set of `.strip(" \"'")`: space, double quote,
single quote. -/
def isStripChar (b : Nat) : Bool := b == 32 || b == 34 || b == 39

/-- Python `value.strip(" \"'")`: remove those bytes from both ends. -/
def stripQuotes (l : List Nat) : List Nat :=
  ((l.dropWhile isStripChar).reverse.dropWhile isStripChar).reverse

/-- Hexadecimal digit test for percent decoding. -/
def isHexDigit (b : Nat) : Bool :=
  (48 ≤ b && b ≤ 57) || (97 ≤ b && b ≤ 102) || (65 ≤ b && b ≤ 70)

/-- Value of a hexadecimal digit byte. -/
def hexVal (b : Nat) : Nat :=
  if b ≤ 57 then b - 48 else if b ≤ 70 then b - 55 else b - 87

/-- Helper for `unquoteBytes`; the first argument is fuel (one unit per
consumed byte), so the recursion is structural. -/
def unquoteBytesAux : Nat → List Nat → List Nat
  | 0, l => l
  | _ + 1, [] => []
  | fuel + 1, 37 :: h1 :: h2 :: rest =>
    if isHexDigit h1 && isHexDigit h2 then
      (hexVal h1 * 16 + hexVal h2) :: unquoteBytesAux fuel rest
    else 37 :: unquoteBytesAux fuel (h1 :: h2 :: rest)
  | fuel + 1, b :: rest => b :: unquoteBytesAux fuel rest

/-- urllib.parse.unquote at the byte level: each `%` followed by two hex
digits becomes the denoted byte; a `%` not followed by two hex digits is
kept literally.  (Python decodes the resulting bytes as UTF-8; on valid
UTF-8 that is the identity at the byte level.)  Each step consumes at
least one byte, so `l.length` fuel always suffices. -/
def unquoteBytes (l : List Nat) : List Nat :=
  unquoteBytesAux l.length l

/-- One step of `re.sub(r'[<>:"/\\|?*]', "_", filename)`: the bytes of
the characters `< > : " / \ | ? *` become `_` (byte 95). -/
def sanitizeByte (b : Nat) : Nat :=
  if b ∈ ([60, 62, 58, 34, 47, 92, 124, 63, 42] : List Nat) then 95 else b

/-- The default of the `default_filename` parameter of get_filename: the
source spells it "unkown_filename". -/
def defaultFilename : List Nat := utf8Bytes "unkown_filename"

/-- utils.get_filename: `contentDisposition` is
`resp.headers.get("content-disposition", "")` (so a missing header and an
empty header value coincide, as in the source); `defaultName` is the
`default_filename` parameter, whose Python default is `defaultFilename`. -/
def get_filename (contentDisposition : List Nat) (defaultName : List Nat) : List Nat :=
  if contentDisposition.isEmpty then defaultName
  else
    match reSearchFilename contentDisposition with
    | some m =>
      let filename := stripQuotes m
      let filename2 :=
        if startsWithBytes (utf8Bytes "UTF-8\x27\x27") filename
            || startsWithBytes (utf8Bytes "utf-8\x27\x27") filename then
          unquoteBytes (filename.drop 7)
        else filename
      filename2.map sanitizeByte
    | none => defaultName

/-! ## HTTP responses and status validation: utils.validate_response -/

/-- An httpx response as the client consumes it: the status code, the body
decoded as text (`resp.text`), the raw body bytes (`resp.content`), the
`content-disposition` header value (empty bytes when absent, matching
`headers.get("content-disposition", "")`), and the `version` / `status`
fields of the JSON body (`resp.json().get(..., None)`), `none` standing
for an absent key. -/
structure HttpResponse where
  statusCode : Nat
  text : String
  content : List Nat
  contentDisposition : List Nat
  jsonVersion : Option String
  jsonStatus : Option String
deriving DecidableEq

/-- The human-readable reason of validate_response's `error_messages`
mapping, with the generic fallback for unmapped codes. -/
def errorMessageFor (statusCode : Nat) : String :=
  if statusCode = 400 then "Bad request"
  else if statusCode = 401 then "Unauthorized"
  else if statusCode = 403 then "Forbidden"
  else if statusCode = 404 then "Not found"
  else if statusCode = 405 then "Method not allowed"
  else if statusCode = 413 then "Payload too large"
  else if statusCode = 422 then "Unprocessable entity"
  else if statusCode = 500 then "Internal server error"
  else if statusCode = 502 then "Bad gateway"
  else if statusCode = 503 then "Service unavailable"
  else if statusCode = 504 then "Gateway timeout"
  else "Request failed with status code " ++ toString statusCode

/-- utils.validate_response: return the response when the status code is
in the 2xx class, otherwise raise an Exception whose message is the
mapped reason followed by the response body text. -/
def validate_response (resp : HttpResponse) : Except PyError HttpResponse :=
  if 200 ≤ resp.statusCode ∧ resp.statusCode < 300 then .ok resp
  else .error (.exception (errorMessageFor resp.statusCode ++ ": " ++ resp.text))

/-- The substring relation on strings: `needle` occurs contiguously in
`hay` (used to state that an error message carries some text). -/
def containsStr (needle hay : String) : Prop :=
  ∃ before after, hay = before ++ (needle ++ after)

/-! ## The transport wrapper: client.ProxyClient -/

/-- The mutable fields of ProxyClient: the cached advertised server
version and the cached server status, both `Optional[str]`. -/
structure ClientState where
  version : Option String
  serverStatus : Option String
deriving DecidableEq

/-- Python truthiness of an `Optional[str]` (`if not self.version` tests
the negation of this): `None` and the empty string are falsy. -/
def pyTruthy : Option String → Bool
  | none => false
  | some s => s != ""

/-- client.ProxyClient.update_status: unconditionally overwrite both
cached fields. -/
def ProxyClient.update_status (version serverStatus : Option String) : ClientState :=
  { version := version, serverStatus := serverStatus }

/-- client.ProxyClient.request: refuse with ValueError when the cached
version is falsy; otherwise the request goes to the underlying transport,
whose response is `transportResp` (so an outcome independent of
`transportResp` is one reached before any network call); the response is
validated, and a request to the status endpoint (always issued with a
`url` keyword by the call sites) refreshes both cached fields from the
JSON body.  Returns the response together with the updated state. -/
def ProxyClient.request (st : ClientState) (url : String)
    (transportResp : HttpResponse) : Except PyError (HttpResponse × ClientState) :=
  if !pyTruthy st.version then .error (.valueError "version is empty")
  else
    match validate_response transportResp with
    | .error e => .error e
    | .ok response =>
      if url = "/api/v1/info/status" then
        .ok (response, ProxyClient.update_status response.jsonVersion response.jsonStatus)
      else .ok (response, st)

/-- client.ProxyClient.__init__: issue the bootstrap status request
(`__get_status` calls the underlying transport directly, bypassing the
version guard), validate it, and populate both cached fields from the
JSON body with `None` for missing keys. -/
def ProxyClient.init (statusResp : HttpResponse) : Except PyError ClientState :=
  match validate_response statusResp with
  | .error e => .error e
  | .ok r => .ok { version := r.jsonVersion, serverStatus := r.jsonStatus }

/-- The operation modules' view of a client call
(`resp = self.__client.request(...)`): the returned response, with any
raised error propagated. -/
def clientCall (st : ClientState) (url : String)
    (transportResp : HttpResponse) : Except PyError HttpResponse :=
  match ProxyClient.request st url transportResp with
  | .error e => .error e
  | .ok (resp, _) => .ok resp

/-! ## Capability gate: utils.requires_server_version -/

/-- The message of the capability error raised by the gate (the Python
f-string of the source). -/
def capabilityErrorMsg (serverVersion minVersion : String) : String :=
  "在当前服务器版本(" ++ serverVersion ++ ")下不支持该方法，需要版本 >= " ++ minVersion

/-- utils.requires_server_version: the wrapper around a gated operation.
`clientVersion` is the client's `version` attribute, `none` when the
attribute is absent (then `getattr(client, "version", "0.0.0")` yields
the default "0.0.0").  All API modules store their client in an instance
attribute whose name contains "client", so the `get_client` lookup of
MixApi succeeds and is not modelled; the `server_status` fallback branch
of the source only fires for clients lacking the `version` attribute
entirely and is subsumed by the `getattr` default.  When the comparison
finds the server version lower than `minVersion` the gate raises without
running `func`; otherwise it returns `func`'s outcome unchanged (the
`except` clause of the source re-raises the same exception object). -/
def requires_server_version {α : Type} (minVersion : String)
    (clientVersion : Option String) (func : Except PyError α) : Except PyError α :=
  let serverVersion := clientVersion.getD "0.0.0"
  let comparisonResult := compare_versions serverVersion minVersion
  if comparisonResult < 0 then
    .error (.exception (capabilityErrorMsg serverVersion minVersion))
  else func

/-! ## Response materializer: utils.save_file -/

/-- A file system: regular files only, as a map from paths (byte strings)
to file contents.  `out_path.is_file()` is `(fs p).isSome`; writing in
`"wb"` mode creates or truncates the target. -/
def FileSystem : Type := List Nat → Option (List Nat)

/-- utils.save_file: write the response body to `outPath` itself when that
names an existing regular file, otherwise to `outPath/<extracted name>`;
return the resolved target path and the updated file system.  Byte 47 is
the path separator of `out_path.joinpath(filename)`. -/
def save_file (resp : HttpResponse) (outPath : List Nat) (fs : FileSystem) :
    (List Nat) × FileSystem :=
  let targetFile :=
    if (fs outPath).isSome then outPath
    else outPath ++ 47 :: get_filename resp.contentDisposition defaultFilename
  (targetFile, fun p => if p = targetFile then some resp.content else fs p)

/-! ## Operation modules: security.SecurityApi.sanitize_pdf and
convert.ConvertApi.pdf_to_word -/

/-- The state an operation-module method touches: the file system and the
multiset of currently open local file handles (by path). -/
structure SysState where
  fs : FileSystem
  openHandles : List (List Nat)

/-- security.SecurityApi.sanitize_pdf: validate that one of `file_input` /
`file_id` is given, open the input handle when `file_input` is given,
issue the request (its outcome is `requestResult`; the sanitize options
only shape the form fields sent to the server and are not modelled), on
success close the handle, materialize the response at `outPath` and
return `resp.text`.  An exception from the request propagates before the
`file.close()` line is reached. -/
def sanitize_pdf (outPath : List Nat) (fileInput : Option (List Nat))
    (fileId : Option String) (requestResult : Except PyError HttpResponse)
    (st : SysState) : Except PyError String × SysState :=
  if fileInput = none ∧ fileId = none then
    (.error (.valueError "file_input and file_id must be provided one of"), st)
  else
    let st1 : SysState :=
      match fileInput with
      | some p => { st with openHandles := st.openHandles ++ [p] }
      | none => st
    match requestResult with
    | .error e => (.error e, st1)
    | .ok resp =>
      let st2 : SysState :=
        match fileInput with
        | some p => { st1 with openHandles := st1.openHandles.erase p }
        | none => st1
      (.ok resp.text, { st2 with fs := (save_file resp outPath st2.fs).2 })

/-- convert.ConvertApi.pdf_to_word: validate `output_format` against
doc/docx, validate that one of `file_input` / `file_id` is given, open
the input handle when `file_input` is given, issue the request, on
success close the handle, materialize the response at `outPath` and
return the resolved path.  As in the source, the handle is closed only
after a successful request. -/
def pdf_to_word (outPath : List Nat) (fileInput : Option (List Nat))
    (fileId : Option String) (outputFormat : Option String)
    (requestResult : Except PyError HttpResponse) (st : SysState) :
    Except PyError (List Nat) × SysState :=
  if ¬(outputFormat = some "doc" ∨ outputFormat = some "docx") then
    (.error (.valueError "output_format must be either \x27doc\x27 or \x27docx\x27"), st)
  else if fileInput = none ∧ fileId = none then
    (.error (.valueError "file_input and file_id must be provided one of"), st)
  else
    let st1 : SysState :=
      match fileInput with
      | some p => { st with openHandles := st.openHandles ++ [p] }
      | none => st
    match requestResult with
    | .error e => (.error e, st1)
    | .ok resp =>
      let st2 : SysState :=
        match fileInput with
        | some p => { st1 with openHandles := st1.openHandles.erase p }
        | none => st1
      let saved := save_file resp outPath st2.fs
      (.ok saved.1, { st2 with fs := saved.2 })

/-- Decidable equality of `Except` outcomes, so that concrete runs of the
client can be checked by `decide`. -/
instance {ε α : Type} [DecidableEq ε] [DecidableEq α] : DecidableEq (Except ε α)
  | .error e, .error f =>
    if h : e = f then .isTrue (by rw [h])
    else .isFalse (fun hh => h (by injection hh))
  | .error _, .ok _ => .isFalse (fun hh => Except.noConfusion hh)
  | .ok _, .error _ => .isFalse (fun hh => Except.noConfusion hh)
  | .ok x, .ok y =>
    if h : x = y then .isTrue (by rw [h])
    else .isFalse (fun hh => h (by injection hh))

/-! ## Theorems -/

/-! ### Lemmas about the comparator loop -/

theorem getD_replicate_zero (m i : Nat) : (List.replicate m 0).getD i 0 = 0 := by
  induction m generalizing i with
  | zero => simp
  | succ m ih =>
    cases i with
    | zero => simp
    | succ j => simpa using ih j

theorem getD_append_replicate (l : List Nat) (m i : Nat) :
    (l ++ List.replicate m 0).getD i 0 = l.getD i 0 := by
  induction l generalizing i with
  | nil => simpa using getD_replicate_zero m i
  | cons x xs ih =>
    cases i with
    | zero => simp
    | succ j => simpa using ih j

theorem getD_padTo (l : List Nat) (n i : Nat) :
    (padTo n l).getD i 0 = l.getD i 0 :=
  getD_append_replicate l (n - l.length) i

theorem padTo_length (l : List Nat) (n : Nat) (h : l.length ≤ n) :
    (padTo n l).length = n := by
  simp only [padTo, List.length_append, List.length_replicate]
  omega

theorem drop_eq_getD_cons (l : List Nat) (i : Nat) (h : i < l.length) :
    l.drop i = l.getD i 0 :: l.drop (i + 1) := by
  induction l generalizing i with
  | nil => simp at h
  | cons x xs ih =>
    cases i with
    | zero => simp
    | succ j =>
      have hj : j < xs.length := by simpa using h
      simpa using ih j hj

theorem comparePartsLoop_padTo (n : Nat) (p q : List Nat) :
    ∀ (r i : Nat),
      comparePartsLoop (padTo n p) (padTo n q) i r = comparePartsLoop p q i r := by
  intro r
  induction r with
  | zero => intro i; rfl
  | succ r ih =>
    intro i
    simp only [comparePartsLoop, getD_padTo]
    split <;> [rfl; skip]
    split <;> [rfl; exact ih (i + 1)]

theorem comparePartsLoop_eq_firstUnequalSign :
    ∀ (r : Nat) (p q : List Nat) (i : Nat),
      p.length = i + r → q.length = i + r →
      comparePartsLoop p q i r = firstUnequalSign (p.drop i) (q.drop i) := by
  intro r
  induction r with
  | zero =>
    intro p q i hp hq
    rw [List.drop_eq_nil_of_le (by omega), List.drop_eq_nil_of_le (by omega)]
    rfl
  | succ r ih =>
    intro p q i hp hq
    have hip : i < p.length := by omega
    have hiq : i < q.length := by omega
    rw [drop_eq_getD_cons p i hip, drop_eq_getD_cons q i hiq]
    simp only [comparePartsLoop, firstUnequalSign]
    split <;> [rfl; skip]
    split <;> [rfl; exact ih p q (i + 1) (by omega) (by omega)]

theorem compare_versions_eq_spec (a b : String) :
    compare_versions a b = compareVersionsSpec a b := by
  unfold compare_versions compareVersionsSpec
  have hp : (versionParts a).length ≤ max (versionParts a).length (versionParts b).length :=
    Nat.le_max_left _ _
  have hq : (versionParts b).length ≤ max (versionParts a).length (versionParts b).length :=
    Nat.le_max_right _ _
  rw [← comparePartsLoop_padTo (max (versionParts a).length (versionParts b).length)]
  have := comparePartsLoop_eq_firstUnequalSign
    (max (versionParts a).length (versionParts b).length)
    (padTo (max (versionParts a).length (versionParts b).length) (versionParts a))
    (padTo (max (versionParts a).length (versionParts b).length) (versionParts b))
    0 (by rw [padTo_length _ _ hp]; omega) (by rw [padTo_length _ _ hq]; omega)
  simpa using this

theorem comparePartsLoop_self (v : List Nat) :
    ∀ (r i : Nat), comparePartsLoop v v i r = 0 := by
  intro r
  induction r with
  | zero => intro i; rfl
  | succ r ih =>
    intro i
    simp only [comparePartsLoop, lt_irrefl, if_false]
    exact ih (i + 1)

theorem comparePartsLoop_antisym (p q : List Nat) :
    ∀ (r i : Nat), comparePartsLoop p q i r = -comparePartsLoop q p i r := by
  intro r
  induction r with
  | zero => intro i; rfl
  | succ r ih =>
    intro i
    simp only [comparePartsLoop]
    rcases Nat.lt_trichotomy (p.getD i 0) (q.getD i 0) with h | h | h
    · rw [if_pos h, if_neg (Nat.lt_asymm h), if_pos h]
    · rw [if_neg (by omega), if_neg (by omega), if_neg (by omega), if_neg (by omega)]
      exact ih (i + 1)
    · rw [if_neg (Nat.lt_asymm h), if_pos h, if_pos h]; decide

/-- C2: compare_versions extracts the maximal digit runs in order, parses
them as non-negative integers, zero-pads the shorter sequence and returns
the sign of the first unequal component pair (0 when all are equal); it is
total (never raises), digit-free inputs compare as equal, and the four
concrete example comparisons of the spec hold. -/
theorem compare_versions_claim_c2 :
    (∀ a b : String, compare_versions a b = compareVersionsSpec a b)
    ∧ (∀ a b : String, versionParts a = [] → versionParts b = [] →
        compare_versions a b = 0)
    ∧ compare_versions "" "" = 0
    ∧ compare_versions "1.3.2" "1.3.2" = 0
    ∧ compare_versions "1.3.10" "1.3.2" = 1
    ∧ compare_versions "1.3" "1.3.0" = 0
    ∧ compare_versions "2.0" "1.9.9" = 1 := by
  refine ⟨compare_versions_eq_spec, ?_, by decide, by decide, by decide, by decide, by decide⟩
  intro a b ha hb
  unfold compare_versions
  rw [ha, hb]
  rfl

/-- C2 witness: the digit-free branch of the claim at the concrete pair
("abc", "-"), whose digit-run lists are empty. -/
theorem compare_versions_claim_c2_witness : compare_versions "abc" "-" = 0 :=
  compare_versions_claim_c2.2.1 "abc" "-" (by decide) (by decide)

/-- C9: compare_versions is antisymmetric, and reflexively equal inputs
compare as 0 — including strings with no digits at all. -/
theorem compare_versions_claim_c9 :
    (∀ a b : String, compare_versions a b = -compare_versions b a)
    ∧ (∀ a : String, compare_versions a a = 0) := by
  constructor
  · intro a b
    simp only [compare_versions]
    rw [Nat.max_comm (versionParts b).length (versionParts a).length]
    exact comparePartsLoop_antisym _ _ _ 0
  · intro a
    simp only [compare_versions]
    exact comparePartsLoop_self _ _ 0

/-- C5 (amended): on every disposition value in which the
(ASCII-case-insensitive) filename or filename* parameter is found, the
extractor trims surrounding space / double-quote / single-quote bytes,
strips a leading RFC 5987 prefix and percent-decodes the remainder only
when the prefix is exactly "UTF-8\x27\x27" or exactly "utf-8\x27\x27"
(other casings are left undecoded), and replaces the characters
< > : " / \ | ? * by underscores; the three example headers of the spec
evaluate as claimed, while a mixed-casing prefix is kept verbatim. -/
theorem get_filename_claim_c5_amended :
    (∀ (cd cap d : List Nat), reSearchFilename cd = some cap →
       get_filename cd d =
         (if startsWithBytes (utf8Bytes "UTF-8\x27\x27") (stripQuotes cap)
             || startsWithBytes (utf8Bytes "utf-8\x27\x27") (stripQuotes cap) then
            unquoteBytes ((stripQuotes cap).drop 7)
          else stripQuotes cap).map sanitizeByte)
    ∧ get_filename (utf8Bytes "filename=\"report.pdf\"") defaultFilename
        = utf8Bytes "report.pdf"
    ∧ get_filename (utf8Bytes "filename*=UTF-8\x27\x27r%C3%A9sum%C3%A9.pdf") defaultFilename
        = utf8Bytes "résumé.pdf"
    ∧ get_filename (utf8Bytes "filename*=utf-8\x27\x27r%C3%A9sum%C3%A9.pdf") defaultFilename
        = utf8Bytes "résumé.pdf"
    ∧ get_filename (utf8Bytes "filename=\"a/b:c.pdf\"") defaultFilename
        = utf8Bytes "a_b_c.pdf"
    ∧ get_filename (utf8Bytes "filename*=Utf-8\x27\x27a%20b.pdf") defaultFilename
        = utf8Bytes "Utf-8\x27\x27a%20b.pdf" := by
  refine ⟨?_, by decide, by decide, by decide, by decide, by decide⟩
  intro cd cap d h
  cases cd with
  | nil => simp [reSearchFilename] at h
  | cons b bs =>
    simp only [get_filename, List.isEmpty_cons, Bool.false_eq_true, if_false, h]

/-- C5 amended witness: the pipeline clause applied to the concrete header
value filename=x.pdf, whose captured group is x.pdf. -/
theorem get_filename_claim_c5_amended_witness :
    get_filename (utf8Bytes "filename=x.pdf") defaultFilename =
      (if startsWithBytes (utf8Bytes "UTF-8\x27\x27") (stripQuotes (utf8Bytes "x.pdf"))
          || startsWithBytes (utf8Bytes "utf-8\x27\x27") (stripQuotes (utf8Bytes "x.pdf")) then
         unquoteBytes ((stripQuotes (utf8Bytes "x.pdf")).drop 7)
       else stripQuotes (utf8Bytes "x.pdf")).map sanitizeByte :=
  get_filename_claim_c5_amended.1 (utf8Bytes "filename=x.pdf") (utf8Bytes "x.pdf")
    defaultFilename (by decide)

/-- C5 counterexample: the claim promises case-insensitive recognition of
the UTF-8\x27\x27 prefix, but on the header value
filename*=uTF-8\x27\x27a%20b.pdf the code recognises no prefix and keeps
the value verbatim instead of decoding it to a b.pdf. -/
theorem get_filename_claim_c5_counterexample :
    get_filename (utf8Bytes "filename*=uTF-8\x27\x27a%20b.pdf") defaultFilename
      = utf8Bytes "uTF-8\x27\x27a%20b.pdf"
    ∧ get_filename (utf8Bytes "filename*=uTF-8\x27\x27a%20b.pdf") defaultFilename
      ≠ utf8Bytes "a b.pdf" := by
  decide

/-- C6 counterexample: on a response with no Content-Disposition value the
extractor does return its default placeholder, but that placeholder is the
misspelt string "unkown_filename", not "unknown_filename" as claimed. -/
theorem get_filename_claim_c6_counterexample :
    get_filename [] defaultFilename = defaultFilename
    ∧ defaultFilename ≠ utf8Bytes "unknown_filename" := by
  decide

/-- C6 (amended): with no Content-Disposition value, and on every
disposition value in which no filename parameter is found, the extractor
returns the default placeholder, and that default is the string
"unkown_filename" (sic, as spelt by the source). -/
theorem get_filename_claim_c6_amended :
    defaultFilename = utf8Bytes "unkown_filename"
    ∧ get_filename [] defaultFilename = defaultFilename
    ∧ (∀ cd : List Nat, reSearchFilename cd = none →
        get_filename cd defaultFilename = defaultFilename) := by
  refine ⟨by decide, by decide, ?_⟩
  intro cd h
  cases cd with
  | nil => rfl
  | cons b bs =>
    simp only [get_filename, List.isEmpty_cons, Bool.false_eq_true, if_false, h]

/-- C6 amended witness: a disposition value with no filename parameter
(attachment) yields the default placeholder. -/
theorem get_filename_claim_c6_amended_witness :
    get_filename (utf8Bytes "attachment") defaultFilename = defaultFilename :=
  get_filename_claim_c6_amended.2.2 (utf8Bytes "attachment") (by decide)

/-- C1: for every gated operation and cached server version (defaulting to
"0.0.0" when the client has no version attribute), a comparison result
below 0 makes the gate raise a capability error whose message contains
both the actual and the required version, independently of the wrapped
operation (so no network call of the operation happens); otherwise the
wrapped operation's result or error is returned unchanged.  In particular
"1.2.0" is below "1.3.2" while "1.3.2" and "1.4.0" are not. -/
theorem requires_server_version_claim_c1 :
    (∀ (α : Type) (minV : String) (v : Option String),
        compare_versions (v.getD "0.0.0") minV < 0 →
          (∀ g : Except PyError α, requires_server_version minV v g =
              .error (.exception (capabilityErrorMsg (v.getD "0.0.0") minV)))
          ∧ containsStr (v.getD "0.0.0") (capabilityErrorMsg (v.getD "0.0.0") minV)
          ∧ containsStr minV (capabilityErrorMsg (v.getD "0.0.0") minV))
    ∧ (∀ (α : Type) (minV : String) (v : Option String) (func : Except PyError α),
        ¬compare_versions (v.getD "0.0.0") minV < 0 →
          requires_server_version minV v func = func)
    ∧ compare_versions "1.2.0" "1.3.2" < 0
    ∧ ¬compare_versions "1.3.2" "1.3.2" < 0
    ∧ ¬compare_versions "1.4.0" "1.3.2" < 0 := by
  refine ⟨?_, ?_, by decide, by decide, by decide⟩
  · intro α minV v h
    refine ⟨?_, ?_, ?_⟩
    · intro g
      simp only [requires_server_version]
      rw [if_pos h]
    · exact ⟨"在当前服务器版本(", ")下不支持该方法，需要版本 >= " ++ minV,
        by simp [capabilityErrorMsg, String.append_assoc]⟩
    · exact ⟨"在当前服务器版本(" ++ v.getD "0.0.0" ++ ")下不支持该方法，需要版本 >= ", "",
        by simp [capabilityErrorMsg, String.append_assoc, String.append_empty]⟩
  · intro α minV v func h
    simp only [requires_server_version]
    rw [if_neg h]

/-- C1 witness: the gate at min version "1.3.2" blocks a client at "1.2.0"
with the capability error and runs the operation unchanged at "1.4.0" and
at "1.3.2". -/
theorem requires_server_version_claim_c1_witness :
    requires_server_version "1.3.2" (some "1.2.0") (.ok (7 : Nat))
      = .error (.exception (capabilityErrorMsg "1.2.0" "1.3.2"))
    ∧ requires_server_version "1.3.2" (some "1.4.0") (.ok (7 : Nat)) = .ok 7
    ∧ requires_server_version "1.3.2" (some "1.3.2") (.ok (7 : Nat)) = .ok 7 :=
  ⟨(requires_server_version_claim_c1.1 Nat "1.3.2" (some "1.2.0") (by decide)).1 (.ok 7),
   requires_server_version_claim_c1.2.1 Nat "1.3.2" (some "1.4.0") (.ok 7) (by decide),
   requires_server_version_claim_c1.2.1 Nat "1.3.2" (some "1.3.2") (.ok 7) (by decide)⟩

/-- C3: save_file writes exactly the response body bytes to the resolved
target and returns that path — the target being `outPath` itself when it
names an existing regular file, and `outPath/<derived name>` otherwise —
and it touches no other path. -/
theorem save_file_claim_c3 :
    ∀ (resp : HttpResponse) (outPath : List Nat) (fs : FileSystem),
      (save_file resp outPath fs).2 (save_file resp outPath fs).1 = some resp.content
      ∧ ((fs outPath).isSome → (save_file resp outPath fs).1 = outPath)
      ∧ (fs outPath = none →
          (save_file resp outPath fs).1 =
            outPath ++ 47 :: get_filename resp.contentDisposition defaultFilename)
      ∧ (∀ q, q ≠ (save_file resp outPath fs).1 → (save_file resp outPath fs).2 q = fs q) := by
  intro resp outPath fs
  refine ⟨?_, ?_, ?_, ?_⟩
  · simp [save_file]
  · intro h
    simp [save_file, h]
  · intro h
    simp [save_file, h]
  · intro q hq
    simp only [save_file] at hq ⊢
    rw [if_neg hq]

/-- C3 witness: with a one-file file system the existing-file branch
returns the file's own path; with an empty file system the directory
branch appends the derived name. -/
theorem save_file_claim_c3_witness :
    (save_file ⟨200, "", [1, 2, 3], [], none, none⟩ (utf8Bytes "/f")
        (fun p => if p = utf8Bytes "/f" then some [9] else none)).1 = utf8Bytes "/f"
    ∧ (save_file ⟨200, "", [1, 2, 3], [], none, none⟩ (utf8Bytes "/d")
        (fun _ => none)).1
      = utf8Bytes "/d" ++ 47 :: get_filename [] defaultFilename :=
  ⟨(save_file_claim_c3 ⟨200, "", [1, 2, 3], [], none, none⟩ (utf8Bytes "/f")
      (fun p => if p = utf8Bytes "/f" then some [9] else none)).2.1 (by decide),
   (save_file_claim_c3 ⟨200, "", [1, 2, 3], [], none, none⟩ (utf8Bytes "/d")
      (fun _ => none)).2.2.1 rfl⟩

/-- C7 counterexample: a wrapper whose cached version is the empty string
(set, not unset) still raises ValueError on a request with a 200 response
instead of delegating and returning the result, because the guard tests
Python truthiness rather than None-ness. -/
theorem proxy_request_claim_c7_counterexample :
    ProxyClient.request ⟨some "", none⟩ "/x" ⟨200, "ok", [], [], none, none⟩
      = .error (.valueError "version is empty")
    ∧ ProxyClient.request ⟨some "", none⟩ "/x" ⟨200, "ok", [], [], none, none⟩
      ≠ .ok (⟨200, "ok", [], [], none, none⟩, ⟨some "", none⟩) := by
  decide

/-- C7 (amended): the wrapper raises ValueError, before any network call,
whenever the cached version is unset or the empty string (Python
falsiness); with a non-empty cached version it delegates, returns the
response exactly when the status code is in the 2xx class, and for any
other status raises an error whose message is the mapped reason for the
eleven tabulated codes (the generic message with the numeric code
otherwise) followed by the raw response body text. -/
theorem proxy_request_claim_c7_amended :
    (∀ (st : ClientState) (url : String),
        st.version = none ∨ st.version = some "" →
        ∀ r : HttpResponse,
          ProxyClient.request st url r = .error (.valueError "version is empty"))
    ∧ (∀ (st : ClientState) (url : String) (resp : HttpResponse) (v : String),
        st.version = some v → v ≠ "" →
          (200 ≤ resp.statusCode ∧ resp.statusCode < 300 →
            ∃ st', ProxyClient.request st url resp = .ok (resp, st'))
          ∧ (¬(200 ≤ resp.statusCode ∧ resp.statusCode < 300) →
              ProxyClient.request st url resp =
                .error (.exception (errorMessageFor resp.statusCode ++ ": " ++ resp.text))
              ∧ containsStr resp.text
                  (errorMessageFor resp.statusCode ++ ": " ++ resp.text)))
    ∧ errorMessageFor 400 = "Bad request"
    ∧ errorMessageFor 401 = "Unauthorized"
    ∧ errorMessageFor 403 = "Forbidden"
    ∧ errorMessageFor 404 = "Not found"
    ∧ errorMessageFor 405 = "Method not allowed"
    ∧ errorMessageFor 413 = "Payload too large"
    ∧ errorMessageFor 422 = "Unprocessable entity"
    ∧ errorMessageFor 500 = "Internal server error"
    ∧ errorMessageFor 502 = "Bad gateway"
    ∧ errorMessageFor 503 = "Service unavailable"
    ∧ errorMessageFor 504 = "Gateway timeout"
    ∧ (∀ n : Nat,
        n ∉ ([400, 401, 403, 404, 405, 413, 422, 500, 502, 503, 504] : List Nat) →
        errorMessageFor n = "Request failed with status code " ++ toString n) := by
  refine ⟨?_, ?_, by decide, by decide, by decide, by decide, by decide, by decide,
    by decide, by decide, by decide, by decide, by decide, ?_⟩
  · intro st url h r
    rcases h with h | h <;> simp [ProxyClient.request, pyTruthy, h]
  · intro st url resp v hv hne
    have htruthy : pyTruthy st.version = true := by
      simp [pyTruthy, hv, hne]
    constructor
    · intro h2
      simp only [ProxyClient.request, htruthy, Bool.not_true, Bool.false_eq_true,
        if_false, validate_response, if_pos h2]
      by_cases hurl : url = "/api/v1/info/status"
      · rw [if_pos hurl]
        exact ⟨_, rfl⟩
      · rw [if_neg hurl]
        exact ⟨st, rfl⟩
    · intro h2
      refine ⟨?_, errorMessageFor resp.statusCode ++ ": ", "",
        by simp [String.append_assoc, String.append_empty]⟩
      simp only [ProxyClient.request, htruthy, Bool.not_true, Bool.false_eq_true,
        if_false, validate_response, if_neg h2]
  · intro n hn
    simp only [List.mem_cons, List.not_mem_nil, or_false, not_or] at hn
    obtain ⟨h1, h2, h3, h4, h5, h6, h7, h8, h9, h10, h11⟩ := hn
    simp only [errorMessageFor, if_neg h1, if_neg h2, if_neg h3, if_neg h4, if_neg h5,
      if_neg h6, if_neg h7, if_neg h8, if_neg h9, if_neg h10, if_neg h11]

/-- C7 amended witness: a wrapper with cached version "1.2.3" turns a 404
response with body "nope" into the mapped error. -/
theorem proxy_request_claim_c7_amended_witness :
    ProxyClient.request ⟨some "1.2.3", none⟩ "/a" ⟨404, "nope", [], [], none, none⟩
      = .error (.exception (errorMessageFor 404 ++ ": " ++ "nope")) :=
  ((proxy_request_claim_c7_amended.2.1 ⟨some "1.2.3", none⟩ "/a"
      ⟨404, "nope", [], [], none, none⟩ "1.2.3" rfl (by decide)).2 (by decide)).1

/-- C10: update_status stores whatever the status body provides — on a
successful (2xx) status response lacking the version key, construction
caches None, a refresh through the status endpoint unconditionally
overwrites both cached fields with None for the missing key, and from a
None version every subsequent request raises ValueError independently of
the transport, i.e. before any network call, until the version is
repopulated. -/
theorem proxy_status_claim_c10 :
    ∀ resp : HttpResponse,
      200 ≤ resp.statusCode → resp.statusCode < 300 → resp.jsonVersion = none →
        ProxyClient.init resp = .ok ⟨none, resp.jsonStatus⟩
        ∧ (∀ (st : ClientState) (v : String), st.version = some v → v ≠ "" →
            ProxyClient.request st "/api/v1/info/status" resp
              = .ok (resp, ⟨none, resp.jsonStatus⟩))
        ∧ (∀ st : ClientState, st.version = none →
            ∀ (url : String) (r r' : HttpResponse),
              ProxyClient.request st url r = .error (.valueError "version is empty")
              ∧ ProxyClient.request st url r = ProxyClient.request st url r') := by
  intro resp hlo hhi hver
  refine ⟨?_, ?_, ?_⟩
  · simp [ProxyClient.init, validate_response, hlo, hhi, hver]
  · intro st v hv hne
    have htruthy : pyTruthy st.version = true := by
      simp [pyTruthy, hv, hne]
    simp [ProxyClient.request, htruthy, validate_response, hlo, hhi,
      ProxyClient.update_status, hver]
  · intro st hst url r r'
    constructor <;> simp [ProxyClient.request, pyTruthy, hst]

/-- C10 witness: a 204 status response with a status field but no version
field populates the cache with None, after which a request raises
ValueError. -/
theorem proxy_status_claim_c10_witness :
    ProxyClient.init ⟨204, "", [], [], none, some "UP"⟩ = .ok ⟨none, some "UP"⟩
    ∧ ProxyClient.request ⟨none, some "UP"⟩ "/b" ⟨200, "", [], [], none, none⟩
      = .error (.valueError "version is empty") :=
  ⟨(proxy_status_claim_c10 ⟨204, "", [], [], none, some "UP"⟩ (by decide) (by decide) rfl).1,
   ((proxy_status_claim_c10 ⟨204, "", [], [], none, some "UP"⟩ (by decide) (by decide)
      rfl).2.2 ⟨none, some "UP"⟩ rfl "/b" ⟨200, "", [], [], none, none⟩
      ⟨200, "", [], [], none, none⟩).1⟩

theorem sanitize_pdf_error_fs (outPath : List Nat) (fileInput : Option (List Nat))
    (fileId : Option String) (e : PyError) (st : SysState) :
    (sanitize_pdf outPath fileInput fileId (.error e) st).2.fs = st.fs := by
  rcases fileInput with _ | p
  · by_cases hid : fileId = none
    · simp [sanitize_pdf, hid]
    · simp [sanitize_pdf, hid]
  · simp [sanitize_pdf]

theorem sanitize_pdf_error_result (outPath : List Nat) (fileInput : Option (List Nat))
    (fileId : Option String) (e : PyError) (st : SysState)
    (hval : ¬(fileInput = none ∧ fileId = none)) :
    (sanitize_pdf outPath fileInput fileId (.error e) st).1 = .error e := by
  rcases fileInput with _ | p
  · have hid : ¬ fileId = none := fun h => hval ⟨rfl, h⟩
    simp [sanitize_pdf, hid]
  · simp [sanitize_pdf]

theorem pdf_to_word_error_fs (outPath : List Nat) (fileInput : Option (List Nat))
    (fileId : Option String) (fmt : Option String) (e : PyError) (st : SysState) :
    (pdf_to_word outPath fileInput fileId fmt (.error e) st).2.fs = st.fs := by
  by_cases hfmt : fmt = some "doc" ∨ fmt = some "docx"
  · rcases fileInput with _ | p
    · by_cases hid : fileId = none
      · simp [pdf_to_word, hfmt, hid]
      · simp [pdf_to_word, hfmt, hid]
    · simp [pdf_to_word, hfmt]
  · simp [pdf_to_word, hfmt]

theorem pdf_to_word_error_result (outPath : List Nat) (fileInput : Option (List Nat))
    (fileId : Option String) (fmt : Option String) (e : PyError) (st : SysState)
    (hfmt : fmt = some "doc" ∨ fmt = some "docx")
    (hval : ¬(fileInput = none ∧ fileId = none)) :
    (pdf_to_word outPath fileInput fileId fmt (.error e) st).1 = .error e := by
  rcases fileInput with _ | p
  · have hid : ¬ fileId = none := fun h => hval ⟨rfl, h⟩
    simp [pdf_to_word, hfmt, hid]
  · simp [pdf_to_word, hfmt]

theorem clientCall_error_of_not_2xx (cst : ClientState) (url : String)
    (tresp : HttpResponse) (h : ¬(200 ≤ tresp.statusCode ∧ tresp.statusCode < 300)) :
    ∃ e, clientCall cst url tresp = .error e := by
  cases hb : pyTruthy cst.version
  · exact ⟨.valueError "version is empty",
      by simp [clientCall, ProxyClient.request, hb]⟩
  · exact ⟨.exception (errorMessageFor tresp.statusCode ++ ": " ++ tresp.text),
      by simp [clientCall, ProxyClient.request, hb, validate_response, h]⟩

/-- C4: when the issued request fails, sanitize_pdf and pdf_to_word
propagate the error and leave the file system untouched (the response
materializer is never invoked); in particular a server status outside the
2xx class makes the transport wrapper raise, and the operation then
creates or overwrites no file. -/
theorem request_failure_claim_c4 :
    ∀ (outPath : List Nat) (fileInput : Option (List Nat)) (fileId : Option String)
      (e : PyError) (st : SysState),
      ((sanitize_pdf outPath fileInput fileId (.error e) st).2.fs = st.fs
        ∧ (¬(fileInput = none ∧ fileId = none) →
            (sanitize_pdf outPath fileInput fileId (.error e) st).1 = .error e))
      ∧ (∀ fmt : Option String,
          (pdf_to_word outPath fileInput fileId fmt (.error e) st).2.fs = st.fs
          ∧ (fmt = some "doc" ∨ fmt = some "docx" →
              ¬(fileInput = none ∧ fileId = none) →
              (pdf_to_word outPath fileInput fileId fmt (.error e) st).1 = .error e))
      ∧ (∀ (cst : ClientState) (url : String) (tresp : HttpResponse),
          ¬(200 ≤ tresp.statusCode ∧ tresp.statusCode < 300) →
            (sanitize_pdf outPath fileInput fileId (clientCall cst url tresp) st).2.fs = st.fs
            ∧ ∃ msg, (sanitize_pdf outPath fileInput fileId (clientCall cst url tresp) st).1
                = .error msg) := by
  intro outPath fileInput fileId e st
  refine ⟨⟨sanitize_pdf_error_fs _ _ _ _ _, sanitize_pdf_error_result _ _ _ _ _⟩,
    fun fmt => ⟨pdf_to_word_error_fs _ _ _ _ _ _,
      fun hfmt hval => pdf_to_word_error_result _ _ _ _ _ _ hfmt hval⟩, ?_⟩
  intro cst url tresp h2
  obtain ⟨e', he⟩ := clientCall_error_of_not_2xx cst url tresp h2
  rw [he]
  by_cases hval : fileInput = none ∧ fileId = none
  · exact ⟨sanitize_pdf_error_fs _ _ _ _ _,
      .valueError "file_input and file_id must be provided one of",
      by simp [sanitize_pdf, hval]⟩
  · exact ⟨sanitize_pdf_error_fs _ _ _ _ _, e',
      sanitize_pdf_error_result _ _ _ _ _ hval⟩

/-- C4 witness: a failing request (server error, and a concrete 500
transport response) propagates through sanitize_pdf and pdf_to_word with
no output file written. -/
theorem request_failure_claim_c4_witness :
    (sanitize_pdf (utf8Bytes "/out") (some (utf8Bytes "/in.pdf")) none
        (.error (.exception "boom")) ⟨fun _ => none, []⟩).1 = .error (.exception "boom")
    ∧ (pdf_to_word (utf8Bytes "/out") (some (utf8Bytes "/in.pdf")) none (some "doc")
        (.error (.exception "boom")) ⟨fun _ => none, []⟩).1 = .error (.exception "boom")
    ∧ ∃ msg, (sanitize_pdf (utf8Bytes "/out") (some (utf8Bytes "/in.pdf")) none
        (clientCall ⟨some "1.2.3", none⟩ "/u" ⟨500, "boom", [], [], none, none⟩)
        ⟨fun _ => none, []⟩).1 = .error msg :=
  ⟨(request_failure_claim_c4 (utf8Bytes "/out") (some (utf8Bytes "/in.pdf")) none
      (.exception "boom") ⟨fun _ => none, []⟩).1.2 (by simp),
   ((request_failure_claim_c4 (utf8Bytes "/out") (some (utf8Bytes "/in.pdf")) none
      (.exception "boom") ⟨fun _ => none, []⟩).2.1 (some "doc")).2 (Or.inl rfl) (by simp),
   ((request_failure_claim_c4 (utf8Bytes "/out") (some (utf8Bytes "/in.pdf")) none
      (.exception "boom") ⟨fun _ => none, []⟩).2.2 ⟨some "1.2.3", none⟩ "/u"
      ⟨500, "boom", [], [], none, none⟩ (by decide)).2⟩

/-- C8: evaluation of the code at a failing input.  On a request that
raises (here the mapped 500 error), sanitize_pdf and pdf_to_word
propagate the error but leave their opened input handle in the set of
open handles: the `file.close()` line sits after the request and is
never reached, contradicting the close-on-every-exit-path invariant the
spec states (and which the spec itself flags the code as violating). -/
theorem handle_leak_claim_c8 :
    ((sanitize_pdf (utf8Bytes "/out.pdf") (some (utf8Bytes "/in.pdf")) none
        (.error (.exception "Internal server error: boom")) ⟨fun _ => none, []⟩).1
      = .error (.exception "Internal server error: boom")
      ∧ (sanitize_pdf (utf8Bytes "/out.pdf") (some (utf8Bytes "/in.pdf")) none
          (.error (.exception "Internal server error: boom")) ⟨fun _ => none, []⟩).2.openHandles
        = [utf8Bytes "/in.pdf"])
    ∧ ((pdf_to_word (utf8Bytes "/out.doc") (some (utf8Bytes "/in.pdf")) none (some "doc")
        (.error (.exception "Internal server error: boom")) ⟨fun _ => none, []⟩).1
      = .error (.exception "Internal server error: boom")
      ∧ (pdf_to_word (utf8Bytes "/out.doc") (some (utf8Bytes "/in.pdf")) none (some "doc")
          (.error (.exception "Internal server error: boom")) ⟨fun _ => none, []⟩).2.openHandles
        = [utf8Bytes "/in.pdf"]) := by
  refine ⟨⟨rfl, rfl⟩, rfl, rfl⟩
